import Mathlib

/-!
# Verification of the civil-utils seasonal meteorological aggregation pipeline

A shallow embedding, in Lean 4, of the wind-data aggregation scripts of the
`civil-utils` repository (`src/avg-wind-speeds/index.js` and the unnamed
variants `src/unnamed/part_000`, `src/unnamed/part_001`): the NOAA text-file
parser, the season classifier, the three aggregation strategies
(seasonal mean, maximum-of-maxima, direction-filtered top-percentile gust)
and the fetch/skip/gzip-routing layer.

JavaScript numbers are modelled as exact rationals (`ℚ`); `parseFloat` /
`parseInt` results are `Option` values with `none` standing for `NaN`.
Strings are processed as `List Char` (obtained from Lean string literals via
`String.data`) so that every definition evaluates inside the kernel.
-/

attribute [local semireducible] Rat.add Rat.mul Rat.inv Rat.sub Rat.ofScientific

namespace CivilUtils

/-! ## JavaScript string primitives

`String.prototype.split("\n")`, `trim()`, `trim().split(/\s+/)`,
`parseInt(s, 10)` and `parseFloat(s)`, modelled over `List Char`. -/

/-- JS `text.split(sep)` for a one-character separator: splits at every
occurrence, keeping empty pieces (`"a\n\nb".split("\n") = ["a","","b"]`). -/
def splitOnChar (c : Char) : List Char → List (List Char)
  | [] => [[]]
  | x :: xs =>
    if x = c then [] :: splitOnChar c xs
    else
      match splitOnChar c xs with
      | [] => [[x]]
      | h :: t => (x :: h) :: t

/-- JS `s.trim()`: strip leading and trailing whitespace. -/
def jsTrim (l : List Char) : List Char :=
  ((l.dropWhile Char.isWhitespace).reverse.dropWhile Char.isWhitespace).reverse

/-- JS `line.trim().split(/\s+/)`: the whitespace-separated tokens of the
trimmed line.  (On the empty string JS returns `[""]` where this returns `[]`;
both have length `< 8`, the only use made of the result.) -/
def tokenize (line : List Char) : List (List Char) :=
  ((jsTrim line).splitOnP Char.isWhitespace).filter (fun w => !w.isEmpty)

/-- Numeric value of a string of decimal digits. -/
def digitsVal (l : List Char) : ℕ :=
  l.foldl (fun a c => 10 * a + (c.toNat - 48)) 0

/-- Longest leading run of decimal digits, `none` when there is none. -/
def leadingDigits (l : List Char) : Option ℕ :=
  let ds := l.takeWhile Char.isDigit
  if ds.isEmpty then none else some (digitsVal ds)

/-- JS `parseInt(s, 10)`: optional sign, then the longest digit prefix
(trailing garbage ignored); `none` models the `NaN` result. -/
def jsParseInt (l : List Char) : Option ℤ :=
  match l with
  | '-' :: r => (leadingDigits r).map (fun n => -(n : ℤ))
  | '+' :: r => (leadingDigits r).map (fun n => (n : ℤ))
  | _ => (leadingDigits l).map (fun n => (n : ℤ))

/-- Magnitude part of `parseFloat`: digits, optionally followed by `.` and
fractional digits (`"10.5"`, `"99.00"`, `".5"`, `"5."`); `none` when no digit
is found.  Trailing garbage is ignored, as in JS. -/
def jsParseFloatMag (l : List Char) : Option ℚ :=
  let intDs := l.takeWhile Char.isDigit
  match l.drop intDs.length with
  | '.' :: r2 =>
    let fracDs := r2.takeWhile Char.isDigit
    if intDs.isEmpty && fracDs.isEmpty then none
    else some ((digitsVal intDs : ℚ) + (digitsVal fracDs : ℚ) / ((10 : ℕ) ^ fracDs.length : ℕ))
  | _ => if intDs.isEmpty then none else some (digitsVal intDs : ℚ)

/-- JS `parseFloat(s)` on plain decimal literals with an optional sign;
`none` models `NaN`.  (Exponent notation and `Infinity` do not occur in the
whitespace-delimited NOAA columns and are not modelled.) -/
def jsParseFloat (l : List Char) : Option ℚ :=
  match l with
  | '-' :: r => (jsParseFloatMag r).map (fun q => -q)
  | '+' :: r => jsParseFloatMag r
  | _ => jsParseFloatMag l

/-! ## Season classifier (`getSeason`) -/

/-- The return values of the JS `getSeason`: the four season name strings and
the `"Unknown"` fallback. -/
inductive Season
  | winter
  | spring
  | summer
  | fall
  | unknown
  deriving DecidableEq, Repr

/-- `getSeason(month)` of the source: `[12,1,2] → Winter`, `[3,4,5] → Spring`,
`[6,7,8] → Summer`, `[9,10,11] → Fall`, anything else `Unknown`. -/
def getSeason (m : ℤ) : Season :=
  if m = 12 ∨ m = 1 ∨ m = 2 then .winter
  else if m = 3 ∨ m = 4 ∨ m = 5 then .spring
  else if m = 6 ∨ m = 7 ∨ m = 8 then .summer
  else if m = 9 ∨ m = 10 ∨ m = 11 then .fall
  else .unknown

/-- `getSeason` applied to a `parseInt` result: `[12,1,2].includes(NaN)` is
false in JS, so a `NaN` month falls through to `"Unknown"`. -/
def getSeasonOpt (m : Option ℤ) : Season :=
  match m with
  | some v => getSeason v
  | none => .unknown

/-! ## Row accessors shared by all variants

NOAA columns: `0=YY, 1=MM, 2=DD, 3=hh, 4=mm, 5=WDIR, 6=WSPD, 7=GST`. -/

/-- The whitespace-separated columns of a line. -/
def lineCols (line : List Char) : List (List Char) := tokenize line

/-- Column `i` of a line (only read after the `length < 8` guard). -/
def colOf (line : List Char) (i : ℕ) : List Char := (lineCols line).getD i []

/-- JS `line.startsWith("#")`. -/
def lineIsComment (line : List Char) : Bool := line.head? == some '#'

/-- A line every variant skips before looking at any field: empty line,
`#` comment, or fewer than 8 columns. -/
def lineSkipped (line : List Char) : Bool :=
  line.isEmpty || lineIsComment line || decide ((lineCols line).length < 8)

/-- `parseInt(columns[1], 10)` — the month field. -/
def parsedMonth (line : List Char) : Option ℤ := jsParseInt (colOf line 1)

/-- `parseFloat(columns[5])` — the wind direction field (degrees). -/
def parsedWdir (line : List Char) : Option ℚ := jsParseFloat (colOf line 5)

/-- `parseFloat(columns[6])` — the wind speed field (m/s). -/
def parsedWspd (line : List Char) : Option ℚ := jsParseFloat (colOf line 6)

/-- `parseFloat(columns[7])` — the gust field (m/s). -/
def parsedGst (line : List Char) : Option ℚ := jsParseFloat (colOf line 7)

/-- The speed validity check of the sources (complement of
`isNaN(v) || v > 90 || v < 0`): a parsed value in `[0, 90]`. -/
def speedValid : Option ℚ → Bool
  | none => false
  | some v => decide (0 ≤ v ∧ v ≤ 90)

/-- The direction validity check of the sources (complement of
`isNaN(v) || v < 0 || v > 360`): a parsed value in `[0, 360]`. -/
def dirValid : Option ℚ → Bool
  | none => false
  | some v => decide (0 ≤ v ∧ v ≤ 360)

/-! ## Seasonal-mean variant
(`src/avg-wind-speeds/index.js`, second script, and `src/unnamed/part_000`,
first script — identical aggregation logic.) -/

/-- `initSeasonRecord()` state: running sums and counts for WSPD and GST. -/
structure SeasonRecord where
  WSPD_sum : ℚ
  WSPD_count : ℕ
  GST_sum : ℚ
  GST_count : ℕ
  deriving DecidableEq, Repr

/-- `initSeasonRecord()`. -/
def initSeasonRecord : SeasonRecord := ⟨0, 0, 0, 0⟩

/-- `seasonalData[year]`: the four season records of one year. -/
structure YearData where
  winter : SeasonRecord
  spring : SeasonRecord
  summer : SeasonRecord
  fall : SeasonRecord
  deriving DecidableEq, Repr

/-- A fresh `seasonalData[year]` entry (all four records initialised). -/
def initYearData : YearData := ⟨initSeasonRecord, initSeasonRecord, initSeasonRecord, initSeasonRecord⟩

/-- `seasonalData[year][season]`: the JS object has only the four season keys,
so looking up `"Unknown"` yields `undefined`, modelled as `none`. -/
def yearGet (yd : YearData) : Season → Option SeasonRecord
  | .winter => some yd.winter
  | .spring => some yd.spring
  | .summer => some yd.summer
  | .fall => some yd.fall
  | .unknown => none

/-- Write one season's record back into the year object. -/
def yearSet (yd : YearData) (s : Season) (r : SeasonRecord) : YearData :=
  match s with
  | .winter => { yd with winter := r }
  | .spring => { yd with spring := r }
  | .summer => { yd with summer := r }
  | .fall => { yd with fall := r }
  | .unknown => yd

/-- Total read of a season record (the reporting loops only visit the four
real seasons, where `yearGet` is always defined). -/
def recOf (yd : YearData) (s : Season) : SeasonRecord :=
  (yearGet yd s).getD initSeasonRecord

/-- The accumulator update of an accepted row:
`record.WSPD_sum += wspd; record.WSPD_count += 1;`
`record.GST_sum += gst; record.GST_count += 1`. -/
def bumpMean (r : SeasonRecord) (w g : ℚ) : SeasonRecord :=
  { WSPD_sum := r.WSPD_sum + w, WSPD_count := r.WSPD_count + 1,
    GST_sum := r.GST_sum + g, GST_count := r.GST_count + 1 }

/-- One loop iteration of the seasonal-mean `parseFileAsText`: skip empty,
`#`, and short lines; skip rows whose WSPD or GST is `NaN` or out of
`[0, 90]`; otherwise fold into `seasonalData[year][getSeason(month)]`.
A month outside 1–12 (or a `NaN` month) classifies as `Unknown`, whose
bucket is `undefined` in the JS object — the `+=` on it throws, modelled as
`none`. -/
def foldLineMean (yd : YearData) (line : List Char) : Option YearData :=
  if lineSkipped line then some yd
  else if speedValid (parsedWspd line) && speedValid (parsedGst line) then
    match yearGet yd (getSeasonOpt (parsedMonth line)) with
    | some r =>
      some (yearSet yd (getSeasonOpt (parsedMonth line))
        (bumpMean r ((parsedWspd line).getD 0) ((parsedGst line).getD 0)))
    | none => none
  else some yd

/-- The row loop of the seasonal-mean `parseFileAsText` over a year's lines. -/
def foldLinesMean (yd : YearData) : List (List Char) → Option YearData
  | [] => some yd
  | l :: ls =>
    match foldLineMean yd l with
    | none => none
    | some yd' => foldLinesMean yd' ls

/-- The `seasonalData` object: year-keyed records in insertion order. -/
abbrev SeasonalData := List (ℕ × YearData)

/-- `seasonalData[year]` lookup. -/
def lookupYear (sd : SeasonalData) (y : ℕ) : Option YearData :=
  (sd.find? (fun p => p.1 == y)).map Prod.snd

/-- Replace a year's entry. -/
def setYear (sd : SeasonalData) (y : ℕ) (yd : YearData) : SeasonalData :=
  sd.map (fun p => if p.1 == y then (y, yd) else p)

/-- The "ensure the year is initialised" step (`if (!seasonalData[year]) ...`). -/
def ensureYear (sd : SeasonalData) (year : ℕ) : SeasonalData :=
  if (lookupYear sd year).isSome then sd else sd ++ [(year, initYearData)]

/-- `parseFileAsText(fileText, year, seasonalData)` of the seasonal-mean
variant: ensure the year is initialised, then fold every line of the split
text into that year's records.  (Only the `year` key is ever touched, so the
per-line object mutation is equivalently one lookup, a fold over the lines,
and one write-back.) -/
def parseFileMean (text : List Char) (year : ℕ) (sd : SeasonalData) : Option SeasonalData :=
  match foldLinesMean ((lookupYear (ensureYear sd year) year).getD initYearData) (splitOnChar '\n' text) with
  | none => none
  | some yd' => some (setYear (ensureYear sd year) year yd')

/-! ### Seasonal-mean reporting (`main`) -/

/-- `wspdAvg`: `null` unless `WSPD_count > 0`, else `WSPD_sum / WSPD_count`. -/
def wspdAvgOf (r : SeasonRecord) : Option ℚ :=
  if 0 < r.WSPD_count then some (r.WSPD_sum / (r.WSPD_count : ℚ)) else none

/-- `gstAvg`: `null` unless `GST_count > 0`, else `GST_sum / GST_count`. -/
def gstAvgOf (r : SeasonRecord) : Option ℚ :=
  if 0 < r.GST_count then some (r.GST_sum / (r.GST_count : ℚ)) else none

/-- The guard under which a year's record enters `multiYearTotals`:
`wspdAvg !== null && gstAvg !== null`. -/
def meanContrib (r : SeasonRecord) : Bool :=
  (wspdAvgOf r).isSome && (gstAvgOf r).isSome

/-- Component-wise sum of two season records (the four `+=` statements of the
multi-year accumulation). -/
def addRec (a r : SeasonRecord) : SeasonRecord :=
  { WSPD_sum := a.WSPD_sum + r.WSPD_sum, WSPD_count := a.WSPD_count + r.WSPD_count,
    GST_sum := a.GST_sum + r.GST_sum, GST_count := a.GST_count + r.GST_count }

/-- One year's contribution to `multiYearTotals[season]`: raw sums and counts
are re-added only when both per-year averages are non-null. -/
def addMeanTotals (acc r : SeasonRecord) : SeasonRecord :=
  if meanContrib r then addRec acc r else acc

/-- `multiYearTotals[season]` after the per-year reporting loop.  (The JS
loop visits years in `Object.keys(...).sort()` order; the totals are sums, so
any order yields the same record.) -/
def multiYearTotalsMean (sd : SeasonalData) (s : Season) : SeasonRecord :=
  sd.foldl (fun acc p => addMeanTotals acc (recOf p.2 s)) initSeasonRecord

/-- The multi-year WSPD figure printed for a season. -/
def multiWspdAvg (sd : SeasonalData) (s : Season) : Option ℚ :=
  wspdAvgOf (multiYearTotalsMean sd s)

/-- The multi-year GST figure printed for a season. -/
def multiGstAvg (sd : SeasonalData) (s : Season) : Option ℚ :=
  gstAvgOf (multiYearTotalsMean sd s)

/-- Modelled from the spec's words, for comparison with the code's rollup:
the volume-weighted multi-year WSPD mean — (sum of the per-year sums) divided
by (sum of the per-year counts), over the years with at least one valid
observation for the season. -/
def volumeWeightedWspd (sd : SeasonalData) (s : Season) : Option ℚ :=
  if 0 < (((sd.filter (fun p => decide (0 < (recOf p.2 s).WSPD_count))).map
      (fun p => (recOf p.2 s).WSPD_count)).sum) then
    some ((((sd.filter (fun p => decide (0 < (recOf p.2 s).WSPD_count))).map
        (fun p => (recOf p.2 s).WSPD_sum)).sum) /
      ((((sd.filter (fun p => decide (0 < (recOf p.2 s).WSPD_count))).map
        (fun p => (recOf p.2 s).WSPD_count)).sum : ℕ) : ℚ))
  else none

/-- Modelled from the spec's words: the volume-weighted multi-year GST mean. -/
def volumeWeightedGst (sd : SeasonalData) (s : Season) : Option ℚ :=
  if 0 < (((sd.filter (fun p => decide (0 < (recOf p.2 s).GST_count))).map
      (fun p => (recOf p.2 s).GST_count)).sum) then
    some ((((sd.filter (fun p => decide (0 < (recOf p.2 s).GST_count))).map
        (fun p => (recOf p.2 s).GST_sum)).sum) /
      ((((sd.filter (fun p => decide (0 < (recOf p.2 s).GST_count))).map
        (fun p => (recOf p.2 s).GST_count)).sum : ℕ) : ℚ))
  else none

/-! ### Rendered cells

`toFixed(2)` formatting is abstracted to the exact rational shown; the claims
concern only which cells display the `"N/A"` literal. -/

/-- A rendered table cell: the `"N/A"` literal or a numeric value. -/
inductive Cell
  | na
  | val (q : ℚ)
  deriving DecidableEq, Repr

/-- The cell of `src/avg-wind-speeds/index.js` (seasonal script):
`wspdAvg?.toFixed(2) ?? "N/A"` — `"N/A"` exactly on `null`. -/
def renderNullish (a : Option ℚ) : Cell :=
  match a with
  | none => .na
  | some v => .val v

/-- The cell of `src/unnamed/part_000`:
`wspdAvg ? wspdAvg.toFixed(2) : "N/A"` — the JS conditional tests
truthiness, and the number `0` is falsy, so a zero average also renders
`"N/A"`. -/
def renderTruthy (a : Option ℚ) : Cell :=
  match a with
  | none => .na
  | some v => if v = 0 then .na else .val v

/-! ## Maximum-of-maxima variant (`src/unnamed/part_001`) -/

/-- `initSeasonRecord()` of the max variant: `gstMax` starts at
`Number.NEGATIVE_INFINITY` ("no valid sample yet"), modelled as `none`;
plus direction sum and count. -/
structure MaxSeasonRecord where
  gstMax : Option ℚ
  dirSum : ℚ
  dirCount : ℕ
  deriving DecidableEq, Repr

/-- The max variant's fresh record: `gstMax = -∞`, zero direction sums. -/
def initMaxSeasonRecord : MaxSeasonRecord := ⟨none, 0, 0⟩

/-- The max variant's `seasonalData[year]`. -/
structure MaxYearData where
  winter : MaxSeasonRecord
  spring : MaxSeasonRecord
  summer : MaxSeasonRecord
  fall : MaxSeasonRecord
  deriving DecidableEq, Repr

/-- A fresh max-variant year entry. -/
def initMaxYearData : MaxYearData :=
  ⟨initMaxSeasonRecord, initMaxSeasonRecord, initMaxSeasonRecord, initMaxSeasonRecord⟩

/-- Season lookup in the max variant's year object (`"Unknown"` is
`undefined`). -/
def maxYearGet (yd : MaxYearData) : Season → Option MaxSeasonRecord
  | .winter => some yd.winter
  | .spring => some yd.spring
  | .summer => some yd.summer
  | .fall => some yd.fall
  | .unknown => none

/-- Write one season's record back into the max variant's year object. -/
def maxYearSet (yd : MaxYearData) (s : Season) (r : MaxSeasonRecord) : MaxYearData :=
  match s with
  | .winter => { yd with winter := r }
  | .spring => { yd with spring := r }
  | .summer => { yd with summer := r }
  | .fall => { yd with fall := r }
  | .unknown => yd

/-- Total read of a max-variant season record. -/
def maxRecOf (yd : MaxYearData) (s : Season) : MaxSeasonRecord :=
  (maxYearGet yd s).getD initMaxSeasonRecord

/-- `gst > record.gstMax` with `gstMax` possibly the `-∞` sentinel: every
gust exceeds `-∞`. -/
def gtMaxSentinel (g : ℚ) : Option ℚ → Bool
  | none => true
  | some m => decide (m < g)

/-- The accumulator update of an accepted row in the max variant:
conditionally raise `gstMax`, then `dirSum += wdir; dirCount += 1`. -/
def bumpMax (r : MaxSeasonRecord) (g w : ℚ) : MaxSeasonRecord :=
  { gstMax := if gtMaxSentinel g r.gstMax then some g else r.gstMax,
    dirSum := r.dirSum + w, dirCount := r.dirCount + 1 }

/-- One loop iteration of the max variant's `parseFileAsText`: skip empty,
`#`, and short lines; skip rows whose GST is `NaN`/out of `[0, 90]` or whose
WDIR is `NaN`/out of `[0, 360]`; otherwise fold into the season bucket
(an `Unknown` bucket access throws in JS, modelled as `none`). -/
def foldLineMax (yd : MaxYearData) (line : List Char) : Option MaxYearData :=
  if lineSkipped line then some yd
  else if speedValid (parsedGst line) && dirValid (parsedWdir line) then
    match maxYearGet yd (getSeasonOpt (parsedMonth line)) with
    | some r =>
      some (maxYearSet yd (getSeasonOpt (parsedMonth line))
        (bumpMax r ((parsedGst line).getD 0) ((parsedWdir line).getD 0)))
    | none => none
  else some yd

/-- The row loop of the max variant's `parseFileAsText`. -/
def foldLinesMax (yd : MaxYearData) : List (List Char) → Option MaxYearData
  | [] => some yd
  | l :: ls =>
    match foldLineMax yd l with
    | none => none
    | some yd' => foldLinesMax yd' ls

/-- The max variant's `seasonalData` object. -/
abbrev MaxSeasonalData := List (ℕ × MaxYearData)

/-- `seasonalData[year]` lookup, max variant. -/
def maxLookupYear (sd : MaxSeasonalData) (y : ℕ) : Option MaxYearData :=
  (sd.find? (fun p => p.1 == y)).map Prod.snd

/-- Replace a year's entry, max variant. -/
def maxSetYear (sd : MaxSeasonalData) (y : ℕ) (yd : MaxYearData) : MaxSeasonalData :=
  sd.map (fun p => if p.1 == y then (y, yd) else p)

/-- The max variant's "ensure the year is initialised" step (done up front,
lines 36–44 of the source). -/
def maxEnsureYear (sd : MaxSeasonalData) (year : ℕ) : MaxSeasonalData :=
  if (maxLookupYear sd year).isSome then sd else sd ++ [(year, initMaxYearData)]

/-- `parseFileAsText(fileText, year, seasonalData)` of the max variant. -/
def parseFileMax (text : List Char) (year : ℕ) (sd : MaxSeasonalData) : Option MaxSeasonalData :=
  match foldLinesMax ((maxLookupYear (maxEnsureYear sd year) year).getD initMaxYearData) (splitOnChar '\n' text) with
  | none => none
  | some yd' => some (maxSetYear (maxEnsureYear sd year) year yd')

/-- `multiYearAggregates[season]` of the max variant. -/
structure MaxAgg where
  gstMaxSum : ℚ
  gstMaxCount : ℕ
  dirSum : ℚ
  dirCount : ℕ
  deriving DecidableEq, Repr

/-- One year's contribution to `multiYearAggregates[season]`: the per-year
maximum enters iff `gstVal !== null` (i.e. `gstMax` is not the `-∞`
sentinel); the direction sums enter iff `dirCount > 0`. -/
def addMaxAgg (acc : MaxAgg) (r : MaxSeasonRecord) : MaxAgg :=
  let acc1 :=
    match r.gstMax with
    | some v => { acc with gstMaxSum := acc.gstMaxSum + v, gstMaxCount := acc.gstMaxCount + 1 }
    | none => acc
  if 0 < r.dirCount then
    { acc1 with dirSum := acc1.dirSum + r.dirSum, dirCount := acc1.dirCount + r.dirCount }
  else acc1

/-- `multiYearAggregates[season]` after the per-year loop (order-insensitive,
as all updates are sums). -/
def multiMaxAgg (sd : MaxSeasonalData) (s : Season) : MaxAgg :=
  sd.foldl (fun a p => addMaxAgg a (maxRecOf p.2 s)) ⟨0, 0, 0, 0⟩

/-- The printed multi-year figure `GST avg of maxima`:
`gstMaxCount > 0 ? gstMaxSum / gstMaxCount : "N/A"`. -/
def gstAvgOfMaxima (sd : MaxSeasonalData) (s : Season) : Option ℚ :=
  if 0 < (multiMaxAgg sd s).gstMaxCount then
    some ((multiMaxAgg sd s).gstMaxSum / ((multiMaxAgg sd s).gstMaxCount : ℚ))
  else none

/-- The per-year maxima of a season that are past the `-∞` sentinel, in year
order. -/
def perYearMaxima (sd : MaxSeasonalData) (s : Season) : List ℚ :=
  sd.filterMap (fun p => (maxRecOf p.2 s).gstMax)

/-- Modelled from the spec's words, for comparison with the code's rollup:
the arithmetic mean of the per-year maxima over the years that have one. -/
def meanOfMaxima (sd : MaxSeasonalData) (s : Season) : Option ℚ :=
  if 0 < (perYearMaxima sd s).length then
    some ((perYearMaxima sd s).sum / ((perYearMaxima sd s).length : ℚ))
  else none

/-! ## Direction-filtered top-percentile variant
(`src/avg-wind-speeds/index.js`, first script, and `src/unnamed/part_000`,
second script — identical logic, the latter parameterises station and
years.) -/

/-- `isDirectionInRange(wdir, target, tolerance)`:
`wdir >= target - tolerance && wdir <= target + tolerance`. -/
def isDirectionInRange (wdir target tolerance : ℚ) : Bool :=
  decide (target - tolerance ≤ wdir) && decide (wdir ≤ target + tolerance)

/-- One loop iteration of the percentile variant's `parseFileAsText`: the
gust this line pushes onto `validGusts`, if any.  Requires a non-skipped
line, WDIR in `[0, 360]`, GST in `[0, 90]`, and the direction filter. -/
def gustOfLine (fetchDirection directionRange : ℚ) (line : List Char) : Option ℚ :=
  if lineSkipped line then none
  else if dirValid (parsedWdir line) && speedValid (parsedGst line) then
    if isDirectionInRange ((parsedWdir line).getD 0) fetchDirection directionRange then
      parsedGst line
    else none
  else none

/-- The percentile variant's `parseFileAsText`: the gusts one year's text
appends to the global `validGusts`, in line order. -/
def parseFileGusts (fetchDirection directionRange : ℚ) (text : List Char) : List ℚ :=
  (splitOnChar '\n' text).filterMap (gustOfLine fetchDirection directionRange)

/-- `validGusts.sort((a, b) => b - a)`: a descending-sorted permutation of
the gust list. -/
def sortGustsDesc (l : List ℚ) : List ℚ :=
  l.insertionSort (fun a b => b ≤ a)

/-- `cutoffIndex = Math.floor(validGusts.length * (percentileValue / 100))`. -/
def percentileCutoff (n : ℕ) (p : ℚ) : ℤ :=
  ⌊(n : ℚ) * (p / 100)⌋

/-- `cutoffIndex >= 1 ? validGusts.slice(0, cutoffIndex) : validGusts`
(after the descending sort). -/
def topSubset (l : List ℚ) (p : ℚ) : List ℚ :=
  let sorted := sortGustsDesc l
  if 1 ≤ percentileCutoff l.length p then sorted.take (percentileCutoff l.length p).toNat
  else sorted

/-- The percentile variant's reported average: `none` when `validGusts` is
empty (`main` prints "No valid gust data found" and exits), otherwise the
mean of the selected top subset. -/
def averageTopGust (l : List ℚ) (p : ℚ) : Option ℚ :=
  if l.isEmpty then none
  else some ((topSubset l p).sum / ((topSubset l p).length : ℚ))

/-! ## Fetch layer (`fetchAndProcessYear`)

The HTTP response is data to the model; gzip decompression and
`Buffer.toString` are parameters (external `zlib` / `Buffer` behaviour). -/

/-- An HTTP response: status code and payload bytes. -/
structure HttpResponse where
  statusCode : ℕ
  body : List ℕ
  deriving DecidableEq, Repr

/-- Which branch the payload takes after the gzip-signature check. -/
inductive Routed
  | gz (body : List ℕ)
  | plain (body : List ℕ)
  deriving DecidableEq, Repr

/-- The routing decision of `fetchAndProcessYear`:
`body.length > 2 && body[0] === 0x1f && body[1] === 0x8b` sends the payload
through `zlib.gunzip`; anything else goes straight to the text parser. -/
def routeBody (body : List ℕ) : Routed :=
  if 2 < body.length ∧ body.getD 0 0 = 0x1f ∧ body.getD 1 0 = 0x8b then .gz body
  else .plain body

/-- `fetchAndProcessYear(year, seasonalData)` of the seasonal-mean variant,
given the year's response: a non-200 status logs a warning and resolves with
the state untouched; otherwise the payload is routed by gzip signature and
parsed.  `gunzip` models `zlib.gunzip` (`none` = decompression error, which
rejects the promise and aborts the run); `asText` models
`Buffer.toString()`. -/
def processYearMean (gunzip : List ℕ → Option (List Char)) (asText : List ℕ → List Char)
    (year : ℕ) (resp : HttpResponse) (sd : SeasonalData) : Option SeasonalData :=
  if resp.statusCode ≠ 200 then some sd
  else
    match routeBody resp.body with
    | .gz b =>
      match gunzip b with
      | none => none
      | some txt => parseFileMean txt year sd
    | .plain b => parseFileMean (asText b) year sd

/-- The `main` loop over the year range: fetch and fold each year in order,
threading `seasonalData`. -/
def runYearsMean (gunzip : List ℕ → Option (List Char)) (asText : List ℕ → List Char) :
    List (ℕ × HttpResponse) → SeasonalData → Option SeasonalData
  | [], sd => some sd
  | (y, r) :: rest, sd =>
    match processYearMean gunzip asText y r sd with
    | none => none
    | some sd' => runYearsMean gunzip asText rest sd'

/-! ## Derived predicates used in the statements -/

/-- A line the seasonal-mean parser accepts and folds: not skipped, and both
required numeric fields (WSPD, GST) parse and lie in `[0, 90]`. -/
def meanRowAccepted (line : List Char) : Bool :=
  !lineSkipped line && (speedValid (parsedWspd line) && speedValid (parsedGst line))

/-- The parsed month exists and lies in 1–12. -/
def monthInRange (line : List Char) : Bool :=
  match parsedMonth line with
  | some m => decide (1 ≤ m) && decide (m ≤ 12)
  | none => false

/-- `WSPD_count = GST_count` in every season of a year. -/
def yearCountsEq (yd : YearData) : Bool :=
  decide (yd.winter.WSPD_count = yd.winter.GST_count) &&
  decide (yd.spring.WSPD_count = yd.spring.GST_count) &&
  decide (yd.summer.WSPD_count = yd.summer.GST_count) &&
  decide (yd.fall.WSPD_count = yd.fall.GST_count)

/-- `WSPD_count = GST_count` in every season of every year. -/
def sdCountsEq (sd : SeasonalData) : Bool :=
  sd.all (fun p => yearCountsEq p.2)

/-- `gstMax` lies past the `-∞` sentinel exactly on the seasons that have
folded at least one valid sample (whose count is `dirCount`). -/
def maxSentinelInv (yd : MaxYearData) : Bool :=
  ((yd.winter.gstMax).isSome == decide (0 < yd.winter.dirCount)) &&
  ((yd.spring.gstMax).isSome == decide (0 < yd.spring.dirCount)) &&
  ((yd.summer.gstMax).isSome == decide (0 < yd.summer.dirCount)) &&
  ((yd.fall.gstMax).isSome == decide (0 < yd.fall.dirCount))

/-! ## Concrete inputs for scenarios, witnesses and counterexamples -/

/-- Synthetic year A of the spec's seasonal-mean scenario: three valid Winter
rows, WSPD 10/20/30, GST 15/25/35. -/
def textYearA : List Char :=
  ("2019 01 01 00 00 120 10.0 15.0\n2019 01 02 00 00 120 20.0 25.0\n2019 01 03 00 00 120 30.0 35.0").data

/-- Synthetic year B of the spec's seasonal-mean scenario: one valid Winter
row, WSPD 5, GST 5. -/
def textYearB : List Char := ("2020 01 01 00 00 120 5.0 5.0").data

/-- The seasonal data obtained by folding year A then year B. -/
def scenarioMeanSd : Option SeasonalData :=
  (parseFileMean textYearA 2019 []).bind (parseFileMean textYearB 2020)

/-- A year whose only Winter row has wind speed `0.0` (a valid reading):
its WSPD average is `0`, which is falsy in JS. -/
def textZeroWspd : List Char := ("2021 01 01 00 00 120 0.0 3.0").data

/-- The Winter record produced by `textZeroWspd`. -/
def zeroWspdWinterRec : SeasonRecord :=
  recOf ((lookupYear ((parseFileMean textZeroWspd 2021 []).getD []) 2021).getD initYearData) .winter

/-- A full row whose month field reads 13: both speed fields are valid, so no
filter rejects it, yet `getSeason(13)` is `"Unknown"`. -/
def monthThirteenLine : List Char := ("2020 13 01 00 00 120 5.0 7.0").data

/-- Two synthetic years for the max-variant scenario: year A's Winter gusts
are 15 and 25 (maximum 25), year B's single Winter gust is 5. -/
def textMaxYearA : List Char :=
  ("2019 01 01 00 00 120 5.0 15.0\n2019 01 02 00 00 130 6.0 25.0").data

/-- Year B of the max-variant scenario. -/
def textMaxYearB : List Char := ("2020 01 01 00 00 140 2.0 5.0").data

/-- The max-variant seasonal data of the two-year scenario. -/
def scenarioMaxSd : Option MaxSeasonalData :=
  (parseFileMax textMaxYearA 2019 []).bind (parseFileMax textMaxYearB 2020)

/-- Seven gusts, for the spec's `N=7, p=10` degenerate-cutoff example. -/
def sevenGusts : List ℚ := [3, 9, 4, 7, 5, 6, 8]

/-- A concrete `Buffer.toString()` for the fetch scenarios: bytes decoded as
character codes. -/
def asTextEx (bs : List ℕ) : List Char := bs.map Char.ofNat

/-- A concrete `zlib.gunzip` for the fetch scenarios (never reached: the
scenario payloads are plain text). -/
def gunzipEx (_ : List ℕ) : Option (List Char) := none

/-- Year A's payload as plain-text bytes. -/
def bodyYearA : List ℕ := textYearA.map Char.toNat

/-- Year B's payload as plain-text bytes. -/
def bodyYearB : List ℕ := textYearB.map Char.toNat

/-- A three-year fetch run whose middle year returns HTTP 404. -/
def respsWith404 : List (ℕ × HttpResponse) :=
  [(2019, ⟨200, bodyYearA⟩), (2020, ⟨404, []⟩), (2021, ⟨200, bodyYearB⟩)]

/-- The same run with the failed year left out. -/
def respsOnlyOk : List (ℕ × HttpResponse) :=
  [(2019, ⟨200, bodyYearA⟩), (2021, ⟨200, bodyYearB⟩)]

/-! # Theorems -/

/-! ## Helper lemmas -/

/-- A season other than `Unknown` always has a bucket in the year object. -/
theorem yearGet_isSome_of_ne_unknown (yd : YearData) (s : Season) (h : s ≠ Season.unknown) :
    ∃ r, yearGet yd s = some r := by
  cases s <;> simp [yearGet] at h ⊢

/-- `getSeason` hits `Unknown` exactly outside 1–12. -/
theorem getSeason_ne_unknown_iff (m : ℤ) :
    getSeason m ≠ Season.unknown ↔ (1 ≤ m ∧ m ≤ 12) := by
  unfold getSeason
  split_ifs with h1 h2 h3 h4 <;> simp <;> omega

/-! ## C4 — the direction filter is the closed interval, without wrap-around -/

/-- C4: for every target direction, tolerance, and reading, the direction
filter accepts exactly when the direction lies in the closed interval
`[target − tolerance, target + tolerance]`; both boundaries are inclusive
(target 120 / tolerance 30 keeps 150 and rejects 151), and there is no
wrap-around at 0°/360° (359 does not match target 5 / tolerance 10). -/
theorem direction_filter_closed_interval_no_wrap :
    (∀ wdir target tolerance : ℚ,
        isDirectionInRange wdir target tolerance = true ↔
          (target - tolerance ≤ wdir ∧ wdir ≤ target + tolerance)) ∧
    isDirectionInRange 150 120 30 = true ∧
    isDirectionInRange 151 120 30 = false ∧
    isDirectionInRange 359 5 10 = false := by
  refine ⟨fun w t tol => ?_, by decide, by decide, by decide⟩
  simp [isDirectionInRange]

/-! ## C8 — gzip-signature routing -/

/-- C8 counterexample: the two-byte payload that is exactly the gzip magic
signature has leading bytes `0x1f 0x8b`, yet the code routes it to the text
parser (its length is not `> 2`), contradicting the claimed "if and only if
the payload's first two bytes are `0x1f 0x8b`". -/
theorem two_byte_gzip_signature_not_decompressed :
    List.take 2 [0x1f, 0x8b] = [0x1f, 0x8b] ∧
    routeBody [0x1f, 0x8b] = Routed.plain [0x1f, 0x8b] := by decide

/-- C8 (amended): a successfully fetched payload is decompressed iff its
length exceeds two and its first two bytes are `0x1f 0x8b`; every other
payload — including the bare two-byte signature — is passed to the text
parser unchanged. -/
theorem gzip_routing_iff_signature_and_length :
    (∀ body : List ℕ,
        routeBody body = Routed.gz body ↔ (2 < body.length ∧ body.take 2 = [0x1f, 0x8b])) ∧
    (∀ body : List ℕ,
        routeBody body = Routed.gz body ∨ routeBody body = Routed.plain body) := by
  constructor
  · intro body
    match body with
    | [] => simp [routeBody]
    | [a] => simp [routeBody]
    | a :: b :: rest =>
      have e1 : (a :: b :: rest).getD 0 0 = a := rfl
      have e2 : (a :: b :: rest).getD 1 0 = b := rfl
      have e3 : (a :: b :: rest).take 2 = [a, b] := rfl
      unfold routeBody
      rw [e1, e2, e3]
      split_ifs with hc
      · have hl := hc.1
        simp only [List.length_cons] at hl
        simp [hc.1, hc.2.1, hc.2.2]
        omega
      · constructor
        · intro h
          exact absurd h (by simp)
        · rintro ⟨hl, ht⟩
          have ha : a = 0x1f := by injection ht
          have hb : b = 0x8b := by
            have := congrArg List.tail ht
            simpa using this
          exact absurd ⟨hl, ha, hb⟩ hc
  · intro body
    unfold routeBody
    split
    · exact Or.inl rfl
    · exact Or.inr rfl

/-! ## C9 — which cells render "N/A" -/

/-- C9 counterexample: a Winter with one valid row of wind speed `0.0` has a
positive count and a defined average of `0`, yet the `part_000` table cell
(`wspdAvg ? wspdAvg.toFixed(2) : "N/A"`, a JS truthiness test) renders
`"N/A"`, contradicting "the numeric average is printed ... including when
that average equals 0". -/
theorem zero_average_cell_renders_na_in_truthy_variant :
    0 < zeroWspdWinterRec.WSPD_count ∧
    wspdAvgOf zeroWspdWinterRec = some 0 ∧
    renderTruthy (wspdAvgOf zeroWspdWinterRec) = Cell.na := by decide

/-- C9 (amended): in the `index.js` seasonal table
(`wspdAvg?.toFixed(2) ?? "N/A"`) a cell shows `"N/A"` iff its count is 0 —
a zero average with positive count prints numerically; in the `part_000`
table (`wspdAvg ? ... : "N/A"`) a cell shows `"N/A"` iff its count is 0 or
its average equals 0 (equivalently, its sum is 0), because the number `0` is
falsy in JS. -/
theorem na_cell_iff_zero_count_nullish_or_zero_average_truthy :
    ∀ r : SeasonRecord,
      (renderNullish (wspdAvgOf r) = Cell.na ↔ r.WSPD_count = 0) ∧
      (renderNullish (gstAvgOf r) = Cell.na ↔ r.GST_count = 0) ∧
      (renderTruthy (wspdAvgOf r) = Cell.na ↔ (r.WSPD_count = 0 ∨ r.WSPD_sum = 0)) ∧
      (renderTruthy (gstAvgOf r) = Cell.na ↔ (r.GST_count = 0 ∨ r.GST_sum = 0)) := by
  intro r
  have hw : ∀ (s : ℚ) (c : ℕ), 0 < c → (s / (c : ℚ) = 0 ↔ s = 0) := by
    intro s c hc
    rw [div_eq_zero_iff]
    have : (c : ℚ) ≠ 0 := by positivity
    simp [this]
  have hts : ∀ v : ℚ, renderTruthy (some v) = if v = 0 then Cell.na else Cell.val v :=
    fun _ => rfl
  refine ⟨?_, ?_, ?_, ?_⟩
  · unfold wspdAvgOf renderNullish
    split_ifs with h <;> simp <;> omega
  · unfold gstAvgOf renderNullish
    split_ifs with h <;> simp <;> omega
  · by_cases h : 0 < r.WSPD_count
    · rw [wspdAvgOf, if_pos h, hts]
      by_cases hz : r.WSPD_sum / (r.WSPD_count : ℚ) = 0
      · rw [if_pos hz]
        simp only [true_iff]
        exact Or.inr ((hw _ _ h).mp hz)
      · rw [if_neg hz]
        constructor
        · intro hcontra
          exact absurd hcontra (by simp)
        · rintro (hc | hs)
          · omega
          · exact absurd ((hw _ _ h).mpr hs) hz
    · rw [wspdAvgOf, if_neg h]
      simp only [renderTruthy, true_iff]
      exact Or.inl (by omega)
  · by_cases h : 0 < r.GST_count
    · rw [gstAvgOf, if_pos h, hts]
      by_cases hz : r.GST_sum / (r.GST_count : ℚ) = 0
      · rw [if_pos hz]
        simp only [true_iff]
        exact Or.inr ((hw _ _ h).mp hz)
      · rw [if_neg hz]
        constructor
        · intro hcontra
          exact absurd hcontra (by simp)
        · rintro (hc | hs)
          · omega
          · exact absurd ((hw _ _ h).mpr hs) hz
    · rw [gstAvgOf, if_neg h]
      simp only [renderTruthy, true_iff]
      exact Or.inl (by omega)

/-! ## C6 — months reaching the season classifier -/

/-- C6 counterexample: the row `"2020 13 01 00 00 120 5.0 7.0"` is accepted
by the seasonal-mean parser (non-empty, non-comment, 8 tokens, WSPD and GST
valid — the month is never validated), yet its parsed month is 13, its
season is `Unknown`, and folding it reads the `Unknown` bucket (which is
`undefined` in the JS object: the update throws). -/
theorem accepted_row_with_month_13_reaches_unknown :
    meanRowAccepted monthThirteenLine = true ∧
    parsedMonth monthThirteenLine = some 13 ∧
    getSeasonOpt (parsedMonth monthThirteenLine) = Season.unknown ∧
    foldLineMean initYearData monthThirteenLine = none := by decide

/-- C6 (amended): the parser does not validate the month, so acceptance
alone does not bound it; but for every accepted line whose parsed month does
lie in 1–12, the computed season is never `Unknown` and the fold touches a
real season bucket (it succeeds, never reading an `Unknown` bucket). -/
theorem accepted_row_with_month_in_range_never_unknown :
    (∀ m : ℤ, getSeason m ≠ Season.unknown ↔ (1 ≤ m ∧ m ≤ 12)) ∧
    (∀ (yd : YearData) (line : List Char),
        meanRowAccepted line = true → monthInRange line = true →
          getSeasonOpt (parsedMonth line) ≠ Season.unknown ∧
          (foldLineMean yd line).isSome = true) := by
  refine ⟨getSeason_ne_unknown_iff, ?_⟩
  intro yd line hacc hm
  have hskip : lineSkipped line = false := by
    have := hacc
    unfold meanRowAccepted at this
    rcases Bool.and_eq_true .. ▸ this with ⟨h1, _⟩
    simpa using h1
  have hvalid : speedValid (parsedWspd line) = true ∧ speedValid (parsedGst line) = true := by
    have := hacc
    unfold meanRowAccepted at this
    rcases Bool.and_eq_true .. ▸ this with ⟨_, h2⟩
    exact Bool.and_eq_true .. ▸ h2
  have hseason : getSeasonOpt (parsedMonth line) ≠ Season.unknown := by
    unfold monthInRange at hm
    cases hpm : parsedMonth line with
    | none => rw [hpm] at hm; exact absurd hm (by simp)
    | some m =>
      rw [hpm] at hm
      rcases Bool.and_eq_true .. ▸ hm with ⟨h1, h2⟩
      have : 1 ≤ m ∧ m ≤ 12 := ⟨by simpa using h1, by simpa using h2⟩
      simpa [getSeasonOpt] using (getSeason_ne_unknown_iff m).mpr this
  refine ⟨hseason, ?_⟩
  obtain ⟨r, hr⟩ := yearGet_isSome_of_ne_unknown yd _ hseason
  unfold foldLineMean
  rw [hskip]
  simp only [Bool.false_eq_true, if_false, hvalid.1, hvalid.2, Bool.and_self, if_true, hr,
    Option.isSome_some]

/-! ## C2 — top-percentile cutoff and mean -/

/-- The JS descending sort (`(a, b) => b - a`) produces a permutation of the
gust list. -/
theorem sortGustsDesc_perm (l : List ℚ) : (sortGustsDesc l).Perm l :=
  List.perm_insertionSort _ l

/-- The JS descending sort produces a list sorted by `≥`. -/
theorem sortGustsDesc_sorted (l : List ℚ) :
    List.Sorted (fun a b => b ≤ a) (sortGustsDesc l) := by
  haveI : IsTotal ℚ (fun a b : ℚ => b ≤ a) := ⟨fun a b => le_total b a⟩
  haveI : IsTrans ℚ (fun a b : ℚ => b ≤ a) := ⟨fun _ _ _ h1 h2 => le_trans h2 h1⟩
  exact List.sorted_insertionSort _ l

/-- C2: `cutoff = floor(N × p/100)` over the descending-sorted qualifying
gusts; when `cutoff < 1` the entire set is averaged (degenerate case, not an
error — e.g. the spec's `N = 7, p = 10`); when `cutoff ≥ 1` the result is
the mean of the first `cutoff` elements of the descending-sorted list, and
those elements dominate every gust left out (the sort is a descending-sorted
permutation), so they are the highest gusts. -/
theorem top_percentile_mean_of_highest_gusts :
    (∀ l : List ℚ, (sortGustsDesc l).Perm l ∧ List.Sorted (fun a b => b ≤ a) (sortGustsDesc l)) ∧
    (∀ (l : List ℚ) (p : ℚ), l ≠ [] → percentileCutoff l.length p < 1 →
        averageTopGust l p = some (l.sum / (l.length : ℚ))) ∧
    (∀ (l : List ℚ) (p : ℚ), l ≠ [] → 1 ≤ percentileCutoff l.length p →
        averageTopGust l p =
          some (((sortGustsDesc l).take (percentileCutoff l.length p).toNat).sum /
            (((sortGustsDesc l).take (percentileCutoff l.length p).toNat).length : ℚ))) ∧
    (∀ (l : List ℚ) (k : ℕ), ∀ x ∈ (sortGustsDesc l).take k, ∀ y ∈ (sortGustsDesc l).drop k, y ≤ x) ∧
    (sevenGusts.length = 7 ∧ percentileCutoff sevenGusts.length 10 = 0 ∧
      averageTopGust sevenGusts 10 = some (sevenGusts.sum / (sevenGusts.length : ℚ))) := by
  refine ⟨fun l => ⟨sortGustsDesc_perm l, sortGustsDesc_sorted l⟩, ?_, ?_, ?_, by decide, by decide, by decide⟩
  · intro l p hne hlt
    have hsub : topSubset l p = sortGustsDesc l := by
      unfold topSubset
      rw [if_neg (by omega)]
    unfold averageTopGust
    rw [if_neg (by simpa using hne), hsub,
      (sortGustsDesc_perm l).sum_eq, (sortGustsDesc_perm l).length_eq]
  · intro l p hne hge
    have hsub : topSubset l p = (sortGustsDesc l).take (percentileCutoff l.length p).toNat := by
      unfold topSubset
      rw [if_pos hge]
    unfold averageTopGust
    rw [if_neg (by simpa using hne), hsub]
  · intro l k x hx y hy
    have hs := sortGustsDesc_sorted l
    rw [← List.take_append_drop k (sortGustsDesc l), List.Sorted, List.pairwise_append] at hs
    exact hs.2.2 x hx y hy

/-! ## C5 — only in-range observations reach the accumulators -/

/-- `speedValid` holds exactly on parsed values in `[0, 90]`. -/
theorem speedValid_iff (o : Option ℚ) :
    speedValid o = true ↔ ∃ v, o = some v ∧ 0 ≤ v ∧ v ≤ 90 := by
  cases o <;> simp [speedValid]

/-- `dirValid` holds exactly on parsed values in `[0, 360]`. -/
theorem dirValid_iff (o : Option ℚ) :
    dirValid o = true ↔ ∃ v, o = some v ∧ 0 ≤ v ∧ v ≤ 360 := by
  cases o <;> simp [dirValid]

/-- C5: in each variant, a row that changes any accumulator (or even reaches
a bucket access) has its required numeric fields parsed and in range — WSPD
and GST in `[0, 90]` for the seasonal-mean fold, GST in `[0, 90]` and WDIR
in `[0, 360]` for the max fold and the gust collector — and a row with a
`NaN` or out-of-range required field leaves every accumulator unchanged. -/
theorem only_valid_observations_reach_accumulators :
    (∀ o : Option ℚ, speedValid o = true ↔ ∃ v, o = some v ∧ 0 ≤ v ∧ v ≤ 90) ∧
    (∀ o : Option ℚ, dirValid o = true ↔ ∃ v, o = some v ∧ 0 ≤ v ∧ v ≤ 360) ∧
    (∀ (yd : YearData) (line : List Char), foldLineMean yd line ≠ some yd →
        speedValid (parsedWspd line) = true ∧ speedValid (parsedGst line) = true) ∧
    (∀ (yd : YearData) (line : List Char),
        speedValid (parsedWspd line) = false ∨ speedValid (parsedGst line) = false →
        foldLineMean yd line = some yd) ∧
    (∀ (yd : MaxYearData) (line : List Char), foldLineMax yd line ≠ some yd →
        speedValid (parsedGst line) = true ∧ dirValid (parsedWdir line) = true) ∧
    (∀ (yd : MaxYearData) (line : List Char),
        speedValid (parsedGst line) = false ∨ dirValid (parsedWdir line) = false →
        foldLineMax yd line = some yd) ∧
    (∀ (fd dr : ℚ) (line : List Char) (g : ℚ), gustOfLine fd dr line = some g →
        parsedGst line = some g ∧ (0 ≤ g ∧ g ≤ 90) ∧ dirValid (parsedWdir line) = true) ∧
    (∀ (fd dr : ℚ) (line : List Char),
        dirValid (parsedWdir line) = false ∨ speedValid (parsedGst line) = false →
        gustOfLine fd dr line = none) := by
  refine ⟨speedValid_iff, dirValid_iff, ?_, ?_, ?_, ?_, ?_, ?_⟩
  · intro yd line h
    unfold foldLineMean at h
    by_cases hs : lineSkipped line = true
    · rw [if_pos hs] at h
      exact absurd rfl h
    · rw [if_neg hs] at h
      by_cases hv : (speedValid (parsedWspd line) && speedValid (parsedGst line)) = true
      · exact Bool.and_eq_true .. |>.mp hv
      · rw [if_neg hv] at h
        exact absurd rfl h
  · intro yd line hbad
    unfold foldLineMean
    by_cases hs : lineSkipped line = true
    · rw [if_pos hs]
    · rw [if_neg hs, if_neg]
      intro hv
      rcases Bool.and_eq_true .. |>.mp hv with ⟨h1, h2⟩
      rcases hbad with hb | hb
      · rw [h1] at hb
        exact Bool.true_eq_false.mp hb
      · rw [h2] at hb
        exact Bool.true_eq_false.mp hb
  · intro yd line h
    unfold foldLineMax at h
    by_cases hs : lineSkipped line = true
    · rw [if_pos hs] at h
      exact absurd rfl h
    · rw [if_neg hs] at h
      by_cases hv : (speedValid (parsedGst line) && dirValid (parsedWdir line)) = true
      · exact Bool.and_eq_true .. |>.mp hv
      · rw [if_neg hv] at h
        exact absurd rfl h
  · intro yd line hbad
    unfold foldLineMax
    by_cases hs : lineSkipped line = true
    · rw [if_pos hs]
    · rw [if_neg hs, if_neg]
      intro hv
      rcases Bool.and_eq_true .. |>.mp hv with ⟨h1, h2⟩
      rcases hbad with hb | hb
      · rw [h1] at hb
        exact Bool.true_eq_false.mp hb
      · rw [h2] at hb
        exact Bool.true_eq_false.mp hb
  · intro fd dr line g h
    unfold gustOfLine at h
    by_cases hs : lineSkipped line = true
    · rw [if_pos hs] at h
      exact absurd h (by simp)
    · rw [if_neg hs] at h
      by_cases hv : (dirValid (parsedWdir line) && speedValid (parsedGst line)) = true
      · rw [if_pos hv] at h
        rcases Bool.and_eq_true .. |>.mp hv with ⟨h1, h2⟩
        by_cases hr : isDirectionInRange ((parsedWdir line).getD 0) fd dr = true
        · rw [if_pos hr] at h
          rcases (speedValid_iff (parsedGst line)).mp h2 with ⟨v, hv2, hlo, hhi⟩
          rw [hv2] at h
          have : v = g := by injection h
          exact ⟨by rw [hv2, this], ⟨this ▸ hlo, this ▸ hhi⟩, h1⟩
        · rw [if_neg hr] at h
          exact absurd h (by simp)
      · rw [if_neg hv] at h
        exact absurd h (by simp)
  · intro fd dr line hbad
    unfold gustOfLine
    by_cases hs : lineSkipped line = true
    · rw [if_pos hs]
    · rw [if_neg hs, if_neg]
      intro hv
      rcases Bool.and_eq_true .. |>.mp hv with ⟨h1, h2⟩
      rcases hbad with hb | hb
      · rw [h1] at hb
        exact Bool.true_eq_false.mp hb
      · rw [h2] at hb
        exact Bool.true_eq_false.mp hb

/-! ## C7 — non-200 years are skipped, not fatal -/

/-- C7: a year whose fetch returns a non-200 status is skipped without an
error and without touching the accumulator state, and a whole run computes
exactly what it computes on the successfully fetched years alone; concretely,
a three-year range whose middle year returns HTTP 404 produces the same
final state as the two good years, and that run succeeds. -/
theorem non200_year_skipped_without_state_change :
    (∀ (gunzip : List ℕ → Option (List Char)) (asText : List ℕ → List Char) (year : ℕ)
        (resp : HttpResponse) (sd : SeasonalData), resp.statusCode ≠ 200 →
        processYearMean gunzip asText year resp sd = some sd) ∧
    (∀ (gunzip : List ℕ → Option (List Char)) (asText : List ℕ → List Char)
        (resps : List (ℕ × HttpResponse)) (sd : SeasonalData),
        runYearsMean gunzip asText resps sd =
          runYearsMean gunzip asText (resps.filter (fun p => p.2.statusCode == 200)) sd) ∧
    (runYearsMean gunzipEx asTextEx respsWith404 [] = runYearsMean gunzipEx asTextEx respsOnlyOk [] ∧
      (runYearsMean gunzipEx asTextEx respsWith404 []).isSome = true) := by
  have hskip : ∀ (gunzip : List ℕ → Option (List Char)) (asText : List ℕ → List Char) (year : ℕ)
      (resp : HttpResponse) (sd : SeasonalData), resp.statusCode ≠ 200 →
      processYearMean gunzip asText year resp sd = some sd := by
    intro gunzip asText year resp sd h
    unfold processYearMean
    rw [if_pos h]
  refine ⟨hskip, ?_, by decide, by decide⟩
  intro gunzip asText resps
  induction resps with
  | nil => intro sd; rfl
  | cons hd tl ih =>
    intro sd
    obtain ⟨y, r⟩ := hd
    by_cases h : r.statusCode = 200
    · cases hp : processYearMean gunzip asText y r sd with
      | none => simp [runYearsMean, List.filter_cons, h, hp]
      | some sd' => simp [runYearsMean, List.filter_cons, h, hp, ih]
    · rw [List.filter_cons, if_neg (by simpa using h)]
      have := hskip gunzip asText y r sd h
      simp [runYearsMean, this, ih sd]

/-! ## C10 — WSPD and GST counts move in lock-step -/

/-- An accepted row increments the WSPD and GST counts of its bucket
together, so it preserves the lock-step count invariant. -/
theorem yearSet_bump_countsEq (yd : YearData) (s : Season) (r : SeasonRecord) (w g : ℚ)
    (hr : yearGet yd s = some r) (hinv : yearCountsEq yd = true) :
    yearCountsEq (yearSet yd s (bumpMean r w g)) = true := by
  cases s
  case unknown => simp [yearGet] at hr
  all_goals
    simp only [yearGet, Option.some.injEq] at hr
    subst hr
    simp only [yearCountsEq, yearSet, bumpMean, Bool.and_eq_true, decide_eq_true_eq] at hinv ⊢
    omega

/-- A single seasonal-mean fold step preserves `WSPD_count = GST_count` in
every season. -/
theorem foldLineMean_preserves_countsEq (yd yd' : YearData) (line : List Char)
    (h : foldLineMean yd line = some yd') (hinv : yearCountsEq yd = true) :
    yearCountsEq yd' = true := by
  unfold foldLineMean at h
  by_cases hs : lineSkipped line = true
  · rw [if_pos hs] at h
    injection h with e
    rw [← e]
    exact hinv
  · rw [if_neg hs] at h
    by_cases hv : (speedValid (parsedWspd line) && speedValid (parsedGst line)) = true
    · rw [if_pos hv] at h
      cases hg : yearGet yd (getSeasonOpt (parsedMonth line)) with
      | none =>
        rw [hg] at h
        exact absurd h (by simp)
      | some r =>
        rw [hg] at h
        injection h with e
        rw [← e]
        exact yearSet_bump_countsEq yd _ r _ _ hg hinv
    · rw [if_neg hv] at h
      injection h with e
      rw [← e]
      exact hinv

/-- The seasonal-mean line loop preserves the lock-step count invariant. -/
theorem foldLinesMean_preserves_countsEq :
    ∀ (lines : List (List Char)) (yd yd' : YearData),
      foldLinesMean yd lines = some yd' → yearCountsEq yd = true → yearCountsEq yd' = true := by
  intro lines
  induction lines with
  | nil =>
    intro yd yd' h hinv
    injection h with e
    rw [← e]
    exact hinv
  | cons l ls ih =>
    intro yd yd' h hinv
    unfold foldLinesMean at h
    cases hl : foldLineMean yd l with
    | none => rw [hl] at h; exact absurd h (by simp)
    | some yd1 =>
      rw [hl] at h
      exact ih yd1 yd' h (foldLineMean_preserves_countsEq yd yd1 l hl hinv)

/-- Every year entry a lookup can return satisfies the invariant when the
whole state does. -/
theorem lookupYear_countsEq (sd : SeasonalData) (y : ℕ) (hall : sdCountsEq sd = true) :
    yearCountsEq ((lookupYear sd y).getD initYearData) = true := by
  unfold lookupYear
  cases hf : sd.find? (fun p => p.1 == y) with
  | none => decide
  | some p =>
    have hmem : p ∈ sd := List.mem_of_find?_eq_some hf
    have := (List.all_eq_true.mp hall) p hmem
    simpa using this

/-- C10: the seasonal-mean parser increments the WSPD and GST counts of a
bucket together, so `WSPD_count = GST_count` holds in every (year, season)
record of every state reachable from a state satisfying it (in particular
from the empty initial state), and consequently the per-year WSPD and GST
averages are defined (`count > 0`) for exactly the same cells.  The
two-year scenario state produced from raw text satisfies the invariant. -/
theorem wspd_gst_counts_locked_together :
    (∀ (text : List Char) (year : ℕ) (sd sd' : SeasonalData),
        sdCountsEq sd = true → parseFileMean text year sd = some sd' →
        sdCountsEq sd' = true) ∧
    (∀ r : SeasonRecord, r.WSPD_count = r.GST_count →
        ((wspdAvgOf r).isSome = true ↔ (gstAvgOf r).isSome = true)) ∧
    sdCountsEq [] = true ∧
    sdCountsEq (scenarioMeanSd.getD []) = true := by
  refine ⟨?_, ?_, by decide, by decide⟩
  · intro text year sd sd' hall h
    unfold parseFileMean at h
    have hall1 : sdCountsEq (ensureYear sd year) = true := by
      unfold ensureYear
      split
      · exact hall
      · unfold sdCountsEq at hall ⊢
        rw [List.all_append, hall, Bool.true_and]
        simp [yearCountsEq, initYearData, initSeasonRecord]
    cases hf : foldLinesMean ((lookupYear (ensureYear sd year) year).getD initYearData)
        (splitOnChar '\n' text) with
    | none => rw [hf] at h; exact absurd h (by simp)
    | some yd' =>
      rw [hf] at h
      injection h with e
      rw [← e]
      have hyd' : yearCountsEq yd' = true :=
        foldLinesMean_preserves_countsEq _ _ _ hf (lookupYear_countsEq (ensureYear sd year) year hall1)
      unfold sdCountsEq setYear
      rw [List.all_eq_true]
      intro x hx
      rcases List.mem_map.mp hx with ⟨p, hp, hpx⟩
      by_cases hpy : (p.1 == year) = true
      · rw [← hpx, if_pos hpy]
        simpa using hyd'
      · rw [← hpx, if_neg hpy]
        exact (List.all_eq_true.mp hall1) p hp
  · intro r hr
    unfold wspdAvgOf gstAvgOf
    split_ifs with h1 h2 h2 <;> simp <;> omega

/-! ## C1 — the seasonal-mean rollup is volume-weighted -/

/-- Adding the zero record changes nothing. -/
theorem addRec_zero (a : SeasonRecord) : addRec a ⟨0, 0, 0, 0⟩ = a := by
  cases a
  simp [addRec]

/-- `addRec` is associative. -/
theorem addRec_assoc (a r t : SeasonRecord) : addRec (addRec a r) t = addRec a (addRec r t) := by
  cases a; cases r; cases t
  simp [addRec, add_assoc]

/-- The multi-year accumulation loop computes, componentwise, the sums of
the contributing years' raw sums and counts. -/
theorem multiFoldMean (s : Season) :
    ∀ (sd : SeasonalData) (acc : SeasonRecord),
      sd.foldl (fun a p => addMeanTotals a (recOf p.2 s)) acc =
        addRec acc
          ⟨((sd.filter (fun p => meanContrib (recOf p.2 s))).map (fun p => (recOf p.2 s).WSPD_sum)).sum,
           ((sd.filter (fun p => meanContrib (recOf p.2 s))).map (fun p => (recOf p.2 s).WSPD_count)).sum,
           ((sd.filter (fun p => meanContrib (recOf p.2 s))).map (fun p => (recOf p.2 s).GST_sum)).sum,
           ((sd.filter (fun p => meanContrib (recOf p.2 s))).map (fun p => (recOf p.2 s).GST_count)).sum⟩ := by
  intro sd
  induction sd with
  | nil =>
    intro acc
    simp only [List.foldl_nil, List.filter_nil, List.map_nil, List.sum_nil, addRec_zero]
  | cons hd tl ih =>
    intro acc
    rw [List.foldl_cons, List.filter_cons]
    by_cases hc : meanContrib (recOf hd.2 s) = true
    · rw [if_pos hc,
        show addMeanTotals acc (recOf hd.2 s) = addRec acc (recOf hd.2 s) from by
          rw [addMeanTotals, if_pos hc],
        ih (addRec acc (recOf hd.2 s)), addRec_assoc]
      congr 1
    · rw [if_neg hc,
        show addMeanTotals acc (recOf hd.2 s) = acc from by rw [addMeanTotals, if_neg hc]]
      exact ih acc

/-- `multiYearTotals[season]` in closed form. -/
theorem multiYearTotalsMean_eq (sd : SeasonalData) (s : Season) :
    multiYearTotalsMean sd s =
      ⟨((sd.filter (fun p => meanContrib (recOf p.2 s))).map (fun p => (recOf p.2 s).WSPD_sum)).sum,
       ((sd.filter (fun p => meanContrib (recOf p.2 s))).map (fun p => (recOf p.2 s).WSPD_count)).sum,
       ((sd.filter (fun p => meanContrib (recOf p.2 s))).map (fun p => (recOf p.2 s).GST_sum)).sum,
       ((sd.filter (fun p => meanContrib (recOf p.2 s))).map (fun p => (recOf p.2 s).GST_count)).sum⟩ := by
  unfold multiYearTotalsMean
  rw [multiFoldMean s sd initSeasonRecord]
  simp [addRec, initSeasonRecord]

/-- A year contributes to the multi-year totals iff both its counts are
positive. -/
theorem meanContrib_eq (r : SeasonRecord) :
    meanContrib r = (decide (0 < r.WSPD_count) && decide (0 < r.GST_count)) := by
  unfold meanContrib wspdAvgOf gstAvgOf
  split_ifs with h1 h2 h2 <;> simp [h1, h2]

/-- Under the lock-step count invariant, the two counts of every bucket
agree, season by season. -/
theorem recOf_counts_eq (yd : YearData) (hinv : yearCountsEq yd = true) (s : Season) :
    (recOf yd s).WSPD_count = (recOf yd s).GST_count := by
  simp only [yearCountsEq, Bool.and_eq_true, decide_eq_true_eq] at hinv
  obtain ⟨⟨⟨h1, h2⟩, h3⟩, h4⟩ := hinv
  cases s <;> simp [recOf, yearGet, initSeasonRecord, h1, h2, h3, h4]

/-- C1: for seasonal-mean data satisfying the lock-step count invariant
(which every state parsed from text satisfies, by C10's theorem), the
reported multi-year average of each season is the volume-weighted quotient —
sum of the per-year sums over sum of the per-year counts, taken over the
years with at least one valid observation — and on the spec's two-year
scenario it equals `(10+20+30+5)/4 = 65/4 = 16.25`, not the mean
`(20+5)/2` of the per-year means `20` and `5`. -/
theorem seasonal_mean_rollup_volume_weighted :
    (∀ (sd : SeasonalData) (s : Season), sdCountsEq sd = true →
        multiWspdAvg sd s = volumeWeightedWspd sd s ∧
        multiGstAvg sd s = volumeWeightedGst sd s) ∧
    (scenarioMeanSd.isSome = true ∧
      wspdAvgOf (recOf ((lookupYear (scenarioMeanSd.getD []) 2019).getD initYearData) .winter) =
        some 20 ∧
      wspdAvgOf (recOf ((lookupYear (scenarioMeanSd.getD []) 2020).getD initYearData) .winter) =
        some 5 ∧
      multiWspdAvg (scenarioMeanSd.getD []) .winter = some (65 / 4) ∧
      multiWspdAvg (scenarioMeanSd.getD []) .winter ≠ some ((20 + 5) / 2)) := by
  refine ⟨?_, by decide, by decide, by decide, by decide, by decide⟩
  intro sd s hall
  have hcnt : ∀ p ∈ sd, (recOf p.2 s).WSPD_count = (recOf p.2 s).GST_count := by
    intro p hp
    exact recOf_counts_eq p.2 ((List.all_eq_true.mp hall) p hp) s
  have hfw : sd.filter (fun p => meanContrib (recOf p.2 s)) =
      sd.filter (fun p => decide (0 < (recOf p.2 s).WSPD_count)) := by
    apply List.filter_congr
    intro p hp
    rw [meanContrib_eq, ← hcnt p hp]
    cases h : decide (0 < (recOf p.2 s).WSPD_count) <;> simp [h]
  have hfg : sd.filter (fun p => meanContrib (recOf p.2 s)) =
      sd.filter (fun p => decide (0 < (recOf p.2 s).GST_count)) := by
    apply List.filter_congr
    intro p hp
    rw [meanContrib_eq, hcnt p hp]
    cases h : decide (0 < (recOf p.2 s).GST_count) <;> simp [h]
  constructor
  · rw [multiWspdAvg, multiYearTotalsMean_eq, wspdAvgOf, volumeWeightedWspd, hfw]
  · rw [multiGstAvg, multiYearTotalsMean_eq, gstAvgOf, volumeWeightedGst, hfg]

/-! ## C3 — max-gust rollup: mean of per-year maxima over sampled years -/

/-- The direction branch of `addMaxAgg` never touches the gust fields, so
one step adds the per-year maximum exactly when it is past the sentinel. -/
theorem addMaxAgg_gstMaxSum (acc : MaxAgg) (r : MaxSeasonRecord) :
    (addMaxAgg acc r).gstMaxSum = acc.gstMaxSum + ((r.gstMax).getD 0) := by
  unfold addMaxAgg
  cases r.gstMax <;> split_ifs <;> simp

/-- One `addMaxAgg` step counts a year exactly when its maximum is past the
sentinel. -/
theorem addMaxAgg_gstMaxCount (acc : MaxAgg) (r : MaxSeasonRecord) :
    (addMaxAgg acc r).gstMaxCount = acc.gstMaxCount + (if (r.gstMax).isSome then 1 else 0) := by
  unfold addMaxAgg
  cases r.gstMax <;> split_ifs <;> simp_all

/-- The multi-year gust aggregation computes the sum and the number of the
per-year maxima that are past the sentinel. -/
theorem multiFoldMax (s : Season) :
    ∀ (sd : MaxSeasonalData) (acc : MaxAgg),
      (sd.foldl (fun a p => addMaxAgg a (maxRecOf p.2 s)) acc).gstMaxSum =
          acc.gstMaxSum + (perYearMaxima sd s).sum ∧
      (sd.foldl (fun a p => addMaxAgg a (maxRecOf p.2 s)) acc).gstMaxCount =
          acc.gstMaxCount + (perYearMaxima sd s).length := by
  intro sd
  induction sd with
  | nil =>
    intro acc
    simp [perYearMaxima]
  | cons hd tl ih =>
    intro acc
    rw [List.foldl_cons]
    rcases ih (addMaxAgg acc (maxRecOf hd.2 s)) with ⟨ihs, ihc⟩
    rw [ihs, ihc, addMaxAgg_gstMaxSum, addMaxAgg_gstMaxCount]
    unfold perYearMaxima
    rw [List.filterMap_cons]
    cases hg : (maxRecOf hd.2 s).gstMax with
    | none => simp [hg, perYearMaxima]
    | some v =>
      simp [hg, perYearMaxima]
      constructor <;> ring

/-- The code's rollup agrees with the spec-side mean of per-year maxima. -/
theorem gstAvgOfMaxima_eq_meanOfMaxima (sd : MaxSeasonalData) (s : Season) :
    gstAvgOfMaxima sd s = meanOfMaxima sd s := by
  rcases multiFoldMax s sd ⟨0, 0, 0, 0⟩ with ⟨hs, hc⟩
  unfold gstAvgOfMaxima meanOfMaxima multiMaxAgg
  rw [hs, hc]
  simp

/-- Years whose season never left the sentinel can be removed without
changing the list of per-year maxima. -/
theorem perYearMaxima_filter (sd : MaxSeasonalData) (s : Season) :
    perYearMaxima (sd.filter (fun p => (maxRecOf p.2 s).gstMax.isSome)) s = perYearMaxima sd s := by
  induction sd with
  | nil => rfl
  | cons hd tl ih =>
    rw [List.filter_cons]
    cases hg : (maxRecOf hd.2 s).gstMax with
    | none =>
      rw [if_neg (by simp [hg])]
      unfold perYearMaxima
      rw [List.filterMap_cons, hg]
      exact ih
    | some v =>
      rw [if_pos (by simp [hg])]
      unfold perYearMaxima
      rw [List.filterMap_cons, List.filterMap_cons, hg]
      have := ih
      unfold perYearMaxima at this
      rw [this]

/-- An accepted row always leaves a non-sentinel maximum behind. -/
theorem bumpMax_gstMax_isSome (r : MaxSeasonRecord) (g w : ℚ) :
    ((bumpMax r g w).gstMax).isSome = true := by
  unfold bumpMax
  split_ifs with h
  · rfl
  · cases hr : r.gstMax with
    | none => rw [hr] at h; exact absurd rfl h
    | some m => simp

/-- `bumpMax` increments the sample count. -/
theorem bumpMax_dirCount (r : MaxSeasonRecord) (g w : ℚ) :
    (bumpMax r g w).dirCount = r.dirCount + 1 := rfl

/-- An accepted row preserves the "sentinel iff no samples" invariant. -/
theorem maxYearSet_bump_inv (yd : MaxYearData) (s : Season) (r : MaxSeasonRecord) (g w : ℚ)
    (hr : maxYearGet yd s = some r) (hinv : maxSentinelInv yd = true) :
    maxSentinelInv (maxYearSet yd s (bumpMax r g w)) = true := by
  cases s
  case unknown => simp [maxYearGet] at hr
  all_goals
    simp only [maxYearGet, Option.some.injEq] at hr
    subst hr
    simp only [maxSentinelInv, maxYearSet, Bool.and_eq_true, beq_iff_eq] at hinv ⊢
    obtain ⟨⟨⟨h1, h2⟩, h3⟩, h4⟩ := hinv
    refine ⟨⟨⟨?_, ?_⟩, ?_⟩, ?_⟩ <;>
      simp [h1, h2, h3, h4, bumpMax_gstMax_isSome, bumpMax_dirCount]

/-- A single max-variant fold step preserves the sentinel invariant. -/
theorem foldLineMax_preserves_inv (yd yd' : MaxYearData) (line : List Char)
    (h : foldLineMax yd line = some yd') (hinv : maxSentinelInv yd = true) :
    maxSentinelInv yd' = true := by
  unfold foldLineMax at h
  by_cases hs : lineSkipped line = true
  · rw [if_pos hs] at h
    injection h with e
    rw [← e]
    exact hinv
  · rw [if_neg hs] at h
    by_cases hv : (speedValid (parsedGst line) && dirValid (parsedWdir line)) = true
    · rw [if_pos hv] at h
      cases hg : maxYearGet yd (getSeasonOpt (parsedMonth line)) with
      | none =>
        rw [hg] at h
        exact absurd h (by simp)
      | some r =>
        rw [hg] at h
        injection h with e
        rw [← e]
        exact maxYearSet_bump_inv yd _ r _ _ hg hinv
    · rw [if_neg hv] at h
      injection h with e
      rw [← e]
      exact hinv

/-- The max-variant line loop preserves the sentinel invariant. -/
theorem foldLinesMax_preserves_inv :
    ∀ (lines : List (List Char)) (yd yd' : MaxYearData),
      foldLinesMax yd lines = some yd' → maxSentinelInv yd = true → maxSentinelInv yd' = true := by
  intro lines
  induction lines with
  | nil =>
    intro yd yd' h hinv
    injection h with e
    rw [← e]
    exact hinv
  | cons l ls ih =>
    intro yd yd' h hinv
    unfold foldLinesMax at h
    cases hl : foldLineMax yd l with
    | none => rw [hl] at h; exact absurd h (by simp)
    | some yd1 =>
      rw [hl] at h
      exact ih yd1 yd' h (foldLineMax_preserves_inv yd yd1 l hl hinv)

/-- C3: the multi-year value of the max-gust strategy is the arithmetic mean
of the per-year maxima over exactly the years past the sentinel; removing
the sentinel years changes nothing (they contribute no term); and a year
folded from raw text is past the sentinel for a season iff that season
folded at least one valid sample; on the two-year scenario (maxima 25 and
5) the rollup is 15. -/
theorem max_gust_rollup_mean_of_per_year_maxima :
    (∀ (sd : MaxSeasonalData) (s : Season), gstAvgOfMaxima sd s = meanOfMaxima sd s) ∧
    (∀ (sd : MaxSeasonalData) (s : Season),
        gstAvgOfMaxima sd s =
          gstAvgOfMaxima (sd.filter (fun p => (maxRecOf p.2 s).gstMax.isSome)) s) ∧
    (∀ (lines : List (List Char)) (yd : MaxYearData),
        foldLinesMax initMaxYearData lines = some yd →
        ∀ s : Season, ((maxRecOf yd s).gstMax.isSome = true ↔ 0 < (maxRecOf yd s).dirCount)) ∧
    (scenarioMaxSd.isSome = true ∧ gstAvgOfMaxima (scenarioMaxSd.getD []) .winter = some 15) := by
  refine ⟨gstAvgOfMaxima_eq_meanOfMaxima, ?_, ?_, by decide, by decide⟩
  · intro sd s
    rw [gstAvgOfMaxima_eq_meanOfMaxima, gstAvgOfMaxima_eq_meanOfMaxima]
    unfold meanOfMaxima
    rw [perYearMaxima_filter]
  · intro lines yd h s
    have hinv : maxSentinelInv yd = true :=
      foldLinesMax_preserves_inv lines initMaxYearData yd h (by decide)
    simp only [maxSentinelInv, Bool.and_eq_true, beq_iff_eq] at hinv
    obtain ⟨⟨⟨h1, h2⟩, h3⟩, h4⟩ := hinv
    cases s
    case unknown => simp [maxRecOf, maxYearGet, initMaxSeasonRecord]
    all_goals simp [maxRecOf, maxYearGet, h1, h2, h3, h4]

end CivilUtils
